import Mathlib

/-!
Shallow embedding of `src/BOT.py` (AI Career Guidance Chatbot for
Undergraduates) and proofs about its specification claims.

The program is a Streamlit glue layer: a literal knowledge table
(`load_career_data`), a chat prompt template (`get_prompt_template`), a
session-keyed in-memory history store (`get_session_history` over
`st.session_state`), a model-invocation shim (`chatbot_response` delegating to
a LangChain runnable-with-history), and a presentation loop (`main`).

Library code (LangChain `RunnableWithMessageHistory`, `ChatMessageHistory`,
`json.dumps`, `python-dotenv`) is not under `src/`; where a claim depends on
it, the corresponding definition carries a comment saying what it models.
Streamlit effects are modelled as an explicit state (`AppState`) plus a list
of UI events.
-/

/-- Role of one chat turn, per the data model: enum of user and assistant. -/
inductive Role where
  | user : Role
  | assistant : Role
deriving DecidableEq

/-- One role-tagged message in a conversation (a dict with keys role and
content in `st.session_state.messages`, or a message object in a
`ChatMessageHistory`). -/
structure Turn where
  role : Role
  content : String
deriving DecidableEq

/-- The session-history portion of `st.session_state`: a mapping from session
id to the ordered turn sequence stored for it, absent keys mapped to `none`. -/
abbrev Sessions := String → Option (List Turn)

/-- The mutable Streamlit state the program touches: the visible transcript
`st.session_state.messages` and the per-session model histories (both live in
`st.session_state` in the source; the transcript sits under the fixed key
"messages", the histories under the session ids). -/
structure AppState where
  messages : List Turn
  sessions : Sessions

/-- Observable UI effects of one script run: `st.error`, and the
`st.chat_message`/`st.markdown` pairs for the user and assistant bubbles. -/
inductive UIEvent where
  | errorMsg : String → UIEvent
  | chatUser : String → UIEvent
  | chatAssistant : String → UIEvent
deriving DecidableEq

/-- One message of a fully formatted prompt, as handed to the model. -/
structure PromptMsg where
  role : String
  content : String
deriving DecidableEq

/-- The model shim seen from this program: a function from the fully
assembled prompt messages to either a reply text or a raised exception
(`Except.error` carries the exception text). -/
abbrev ModelFn := List PromptMsg → Except String String

/-- Joins strings with a separator (used by the JSON serializer). -/
def joinWith (sep : String) : List String → String
  | [] => ""
  | [x] => x
  | x :: y :: xs => x ++ sep ++ joinWith sep (y :: xs)

/-- Boolean list-level test that `pat` occurs as a prefix. -/
def isPre : List Char → List Char → Bool
  | [], _ => true
  | _ :: _, [] => false
  | a :: as, b :: bs => a == b && isPre as bs

/-- Boolean list-level test that `pat` occurs contiguously somewhere. -/
def containsAux (pat : List Char) : List Char → Bool
  | [] => pat.isEmpty
  | c :: cs => isPre pat (c :: cs) || containsAux pat cs

/-- Boolean test that `pat` occurs contiguously inside `s`. -/
def containsStr (s pat : String) : Bool := containsAux pat.toList s.toList

/-- One entry of the knowledge table: careers, skills and learning resources
for a major. -/
structure CareerEntry where
  careers : List String
  skills : List String
  resources : List String
deriving DecidableEq

/-- The fixed knowledge table built by `load_career_data` (src/BOT.py lines
15-33): an insertion-ordered mapping from major name to its entry. -/
def load_career_data : List (String × CareerEntry) :=
  [ ("Computer Science",
      { careers := ["Software Engineer", "Data Scientist", "Cybersecurity Analyst"]
        skills := ["Python", "Java", "Data Analysis", "Cybersecurity"]
        resources := ["Coursera", "LeetCode", "TryHackMe"] }),
    ("Business",
      { careers := ["Marketing Manager", "Financial Analyst", "Entrepreneur"]
        skills := ["Marketing", "Finance", "Leadership"]
        resources := ["LinkedIn Learning", "Coursera", "Harvard Business Review"] }),
    ("Biology",
      { careers := ["Biomedical Researcher", "Environmental Scientist", "Pharmacist"]
        skills := ["Research", "Lab Techniques", "Data Analysis"]
        resources := ["PubMed", "Khan Academy", "Nature Journal"] }) ]

/-- JSON string literal (no character of the knowledge table needs escaping). -/
def jsonQuote (s : String) : String := "\"" ++ s ++ "\""

/-- Renders a JSON list of strings at the given indentation, as
`json.dumps(-, indent=2)` does: items on their own lines two spaces deeper
than `ind`, closing bracket at `ind`; the empty list prints as `[]`. -/
def dumpStrList (ind : String) (xs : List String) : String :=
  match xs with
  | [] => "[]"
  | _ => "[\n" ++ joinWith ",\n" (xs.map fun x => ind ++ "  " ++ jsonQuote x)
        ++ "\n" ++ ind ++ "]"

/-- Renders one knowledge-table entry as `json.dumps(-, indent=2)` renders the
inner dict: keys careers, skills, resources in insertion order at four
spaces. -/
def dumpEntry (e : CareerEntry) : String :=
  "\x7b\n    " ++ jsonQuote "careers" ++ ": " ++ dumpStrList "    " e.careers
    ++ ",\n    " ++ jsonQuote "skills" ++ ": " ++ dumpStrList "    " e.skills
    ++ ",\n    " ++ jsonQuote "resources" ++ ": " ++ dumpStrList "    " e.resources
    ++ "\n  \x7d"

/-- Models `json.dumps(career_data, indent=2)` (src/BOT.py line 58) on the
fixed schema of the knowledge table: `json.dumps` itself is library code, and
this definition reproduces its output format for a string-keyed dict of
entries in insertion order with indent 2. -/
def jsonDumpsCareer (d : List (String × CareerEntry)) : String :=
  match d with
  | [] => "\x7b\x7d"
  | _ => "\x7b\n"
        ++ joinWith ",\n" (d.map fun p => "  " ++ jsonQuote p.1 ++ ": " ++ dumpEntry p.2)
        ++ "\n\x7d"

example : containsStr (jsonDumpsCareer load_career_data) "\"careers\": [\n      \"Software Engineer\"" = true := by decide

/-- One piece of an f-string style template: literal text or a named
placeholder (written as the name between braces in the source string). -/
inductive Seg where
  | lit : String → Seg
  | var : String → Seg

/-- The fixed instruction sentence of the system template (the final literal
paragraph of the template string at src/BOT.py lines 37-48). -/
def instructionText : String :=
  "Analyze the user\x27s major and input to suggest relevant career paths, skills to develop, and learning resources. If the major is not in the knowledge base, reason about related fields and provide plausible suggestions. Keep responses friendly, professional, and under 200 words."

/-- The raw system template string of `get_prompt_template` (src/BOT.py lines
37-48), braces written with hex escapes. -/
def systemTemplate : String :=
  "\nYou are a career guidance chatbot designed for undergraduates. Your goal is to provide personalized, concise, and actionable career advice based on the user\x27s academic major, interests, and skills. Use the following knowledge base for reference:\n\n\x7bcareer_data\x7d\n\nConversation history:\n\x7bchat_history\x7d\n\nUser input: Major: \x7bmajor\x7d\nInput: \x7buser_input\x7d\n\n" ++ instructionText ++ "\n"

/-- The system template split into literal and placeholder segments; tied to
`systemTemplate` by `systemSegs_render`. -/
def systemSegs : List Seg :=
  [ Seg.lit "\nYou are a career guidance chatbot designed for undergraduates. Your goal is to provide personalized, concise, and actionable career advice based on the user\x27s academic major, interests, and skills. Use the following knowledge base for reference:\n\n",
    Seg.var "career_data",
    Seg.lit "\n\nConversation history:\n",
    Seg.var "chat_history",
    Seg.lit "\n\nUser input: Major: ",
    Seg.var "major",
    Seg.lit "\nInput: ",
    Seg.var "user_input",
    Seg.lit ("\n\n" ++ instructionText ++ "\n") ]

/-- The human message template `"Major: \x7bmajor\x7d\nInput: \x7buser_input\x7d"`
(src/BOT.py line 52) split into segments; tied to the raw string by
`humanSegs_render`. -/
def humanSegs : List Seg :=
  [ Seg.lit "Major: ", Seg.var "major", Seg.lit "\nInput: ", Seg.var "user_input" ]

/-- Renders segments back to the raw template text: a placeholder named `v`
prints as `v` between braces. -/
def segsToTemplate : List Seg → String
  | [] => ""
  | Seg.lit s :: rest => s ++ segsToTemplate rest
  | Seg.var v :: rest => "\x7b" ++ v ++ "\x7d" ++ segsToTemplate rest

set_option maxRecDepth 100000 in
theorem systemSegs_render : segsToTemplate systemSegs = systemTemplate := rfl

theorem humanSegs_render :
    segsToTemplate humanSegs = "Major: \x7bmajor\x7d\nInput: \x7buser_input\x7d" := rfl

/-- The prompt template built by `get_prompt_template` (src/BOT.py lines
49-53): a system message template, a `MessagesPlaceholder` for the variable
chat_history, and a human message template. -/
structure ChatPromptTemplate where
  system : List Seg
  placeholderVar : String
  human : List Seg

/-- Models `get_prompt_template` (src/BOT.py lines 36-53). -/
def get_prompt_template : ChatPromptTemplate :=
  { system := systemSegs, placeholderVar := "chat_history", human := humanSegs }

/-- Looks a placeholder name up in the supplied variable assignment. -/
def lookupVar (vars : List (String × String)) (v : String) : Option String :=
  match vars with
  | [] => none
  | (k, x) :: rest => if k == v then some x else lookupVar rest v

/-- Single-pass f-string substitution: literals pass through, placeholders are
replaced by their value, a missing placeholder raises a KeyError (substituted
values are never re-scanned, as in Python format). -/
def formatSegs (segs : List Seg) (vars : List (String × String)) : Except String String :=
  match segs with
  | [] => Except.ok ""
  | Seg.lit s :: rest => (formatSegs rest vars).map (fun t => s ++ t)
  | Seg.var v :: rest =>
    match lookupVar vars v with
    | none => Except.error ("KeyError: " ++ v)
    | some x => (formatSegs rest vars).map (fun t => x ++ t)

/-- LangChain role tag of a stored turn when replayed into the prompt. -/
def roleStr : Role → String
  | Role.user => "human"
  | Role.assistant => "ai"

/-- Models the string form the library gives the chat-history variable when
the system template references it (the exact text is owned by the library; no
claim depends on it beyond being a function of the prior turns). -/
def renderHistory (h : List Turn) : String :=
  "[" ++ joinWith ", " (h.map fun t => roleStr t.role ++ ": " ++ t.content) ++ "]"

/-- The variable assignment the runnable formats the templates with: the
serialized knowledge table, the rendered history, and the latest major and
question exactly as given. -/
def promptVars (cds major ui : String) (hist : List Turn) : List (String × String) :=
  [("career_data", cds), ("chat_history", renderHistory hist),
   ("major", major), ("user_input", ui)]

/-- Prior turns replayed by the `MessagesPlaceholder`. -/
def histPromptMsgs (hist : List Turn) : List PromptMsg :=
  hist.map fun t => { role := roleStr t.role, content := t.content }

/-- Models formatting `get_prompt_template` at invoke time: the system
message, the replayed history, and the human message, or the first KeyError
raised. -/
def assemblePrompt (cds major ui : String) (hist : List Turn) :
    Except String (List PromptMsg) :=
  match formatSegs get_prompt_template.system (promptVars cds major ui hist),
        formatSegs get_prompt_template.human (promptVars cds major ui hist) with
  | Except.ok sys, Except.ok hum =>
    Except.ok ({ role := "system", content := sys } :: histPromptMsgs hist
      ++ [{ role := "human", content := hum }])
  | Except.error e, _ => Except.error e
  | _, Except.error e => Except.error e

/-- Models `get_session_history` (src/BOT.py lines 68-71): returns the stored
sequence, or stores and returns an empty one when the id is absent; the state
after the call is returned alongside. -/
def get_session_history (session_id : String) (st : Sessions) : List Turn × Sessions :=
  match st session_id with
  | some h => (h, st)
  | none => ([], fun k => if k = session_id then some [] else st k)

/-- The turn sequence a request presenting `session_id` observes. -/
def observe (session_id : String) (st : Sessions) : List Turn :=
  (get_session_history session_id st).1

/-- Modelled from the spec: `append(session_id, turn)` adds to the end of the
sequence stored for that id. The concrete append lives in library code
(`ChatMessageHistory.add_message`), not under `src/`. -/
def appendTurn (session_id : String) (t : Turn) (st : Sessions) : Sessions :=
  let got := get_session_history session_id st
  fun k => if k = session_id then some (got.1 ++ [t]) else got.2 k

/-- Appends a list of turns one by one, in call order. -/
def appendAll (session_id : String) (ts : List Turn) (st : Sessions) : Sessions :=
  ts.foldl (fun s t => appendTurn session_id t s) st

/-- Modelled from the spec: the `RunnableWithMessageHistory` wrapper (library
code, not under `src/`) fetches the history for the session id, formats the
prompt, invokes the model, and on success appends the latest user turn and
the reply to that history; on failure the exception propagates and nothing is
appended (the lazily created empty history remains stored). -/
def invokeWithHistory (model : ModelFn) (cds major ui session_id : String)
    (st : Sessions) : Except String String × Sessions :=
  let got := get_session_history session_id st
  match assemblePrompt cds major ui got.1 with
  | Except.error e => (Except.error e, got.2)
  | Except.ok msgs =>
    match model msgs with
    | Except.error e => (Except.error e, got.2)
    | Except.ok resp =>
      (Except.ok resp,
        appendTurn session_id { role := Role.assistant, content := resp }
          (appendTurn session_id { role := Role.user, content := ui } got.2))

/-- Models `chatbot_response` (src/BOT.py lines 56-65): serializes the
knowledge table, then invokes the runnable with history under the given
session id, which defaults to "default". -/
def chatbot_response (user_input major : String) (runnable : ModelFn)
    (career_data : List (String × CareerEntry)) (st : Sessions)
    (session_id : String := "default") : Except String String × Sessions :=
  let career_data_str := jsonDumpsCareer career_data
  invokeWithHistory runnable career_data_str major user_input session_id st

/-- Pythonic truthiness of the optional environment value: `None` and the
empty string are both falsy (`if not api_key`). -/
def envTruthy (env : Option String) : Bool :=
  match env with
  | none => false
  | some k => !(k == "")

/-- Models the credential resolution of `main` (src/BOT.py lines 86-92): the
environment value if truthy, otherwise the interactively entered value if
truthy, otherwise no usable key. -/
def resolveApiKey (env : Option String) (interactive : String) : Option String :=
  match env with
  | some k => if k == "" then (if interactive == "" then none else some interactive) else some k
  | none => if interactive == "" then none else some interactive

/-- Models the input-handling block of `main` (src/BOT.py lines 121-133): when
both fields are non-empty, render and append the user turn, call
`chatbot_response` (default session id), then either render and append the
assistant turn or show an error; otherwise do nothing. -/
def handleInput (model : ModelFn) (career_data : List (String × CareerEntry))
    (major user_input : String) (st : AppState) : AppState × List UIEvent :=
  if user_input == "" || major == "" then (st, [])
  else
    let msgs1 := st.messages ++ [{ role := Role.user, content := user_input }]
    let r := chatbot_response user_input major model career_data st.sessions
    match r with
    | (Except.ok resp, sessions2) =>
      ({ messages := msgs1 ++ [{ role := Role.assistant, content := resp }],
         sessions := sessions2 },
       [UIEvent.chatUser user_input, UIEvent.chatAssistant resp])
    | (Except.error e, sessions2) =>
      ({ messages := msgs1, sessions := sessions2 },
       [UIEvent.chatUser user_input,
        UIEvent.errorMsg ("Error generating response: " ++ e)])

/-- Outcome of one script run of `main`: the state left behind, the UI events
emitted, and whether control reached the chat-handling section (past
credential resolution and model initialization). -/
structure RunOutcome where
  state : AppState
  events : List UIEvent
  reachedChat : Bool

/-- Models one script run of `main` (src/BOT.py lines 74-133): resolve the
credential (halting with errors if none), initialize the model (halting on an
initialization exception `initErr`), then handle the two input fields. The
model function is consulted only inside `handleInput`. -/
def mainRun (env : Option String) (interactive : String) (initErr : Option String)
    (model : ModelFn) (major user_input : String) (st0 : AppState) : RunOutcome :=
  let keyEvents : List UIEvent :=
    if envTruthy env then []
    else [UIEvent.errorMsg "Gemini API key not found in .env file. Please enter it below."]
  match resolveApiKey env interactive with
  | none =>
    { state := st0,
      events := keyEvents ++ [UIEvent.errorMsg "Gemini API key is required to proceed."],
      reachedChat := false }
  | some _ =>
    match initErr with
    | some e =>
      { state := st0,
        events := keyEvents ++ [UIEvent.errorMsg ("Failed to initialize Gemini model: " ++ e)],
        reachedChat := false }
    | none =>
      let r := handleInput model load_career_data major user_input st0
      { state := r.1, events := keyEvents ++ r.2, reachedChat := true }

/-- A file-system operation. -/
inductive FileOp where
  | read : String → FileOp
  | write : String → FileOp
deriving DecidableEq

/-- Modelled from the spec and the comment at src/BOT.py line 11: the
`load_dotenv()` call (library code, not under `src/`) loads environment
variables from the `.env` file, reading it when it exists and doing nothing
otherwise. -/
def load_dotenv_fileOps (envFileExists : Bool) : List FileOp :=
  if envFileExists then [FileOp.read ".env"] else []

/-- File operations of one program run as a function of whether a `.env` file
exists: the `load_dotenv()` call at src/BOT.py line 12 is the only statement
in the source that touches the file system; every other statement works on
`st.session_state`, in-memory values, or the remote model call. -/
def program_fileOps (envFileExists : Bool) : List FileOp :=
  load_dotenv_fileOps envFileExists

/-- The always-failing model shim used as a concrete witness input. -/
def failModel : ModelFn := fun _ => Except.error "boom"

/-- The stubbed model shim of the end-to-end scenario. -/
def stub_model : ModelFn := fun _ => Except.ok "Learn Python and data analysis."

/-- A session state with no stored histories. -/
def emptySessions : Sessions := fun _ => none

/-- A session state storing exactly an empty history under "a". -/
def stA : Sessions := fun k => if k = "a" then some [] else none

/-- The `indent=2` JSON block of the Computer Science careers list. -/
def careersBlock : String :=
  "\"careers\": [\n      \"Software Engineer\",\n      \"Data Scientist\",\n      \"Cybersecurity Analyst\"\n    ]"

/-- The `indent=2` JSON block of the Computer Science skills list. -/
def skillsBlock : String :=
  "\"skills\": [\n      \"Python\",\n      \"Java\",\n      \"Data Analysis\",\n      \"Cybersecurity\"\n    ]"

theorem get_session_history_fst_other (sid k : String) (st : Sessions) (hk : k ≠ sid) :
    (get_session_history sid st).2 k = st k := by
  cases hst : st sid <;> simp [get_session_history, hst, hk]

theorem observe_appendTurn (sid : String) (t : Turn) (st : Sessions) :
    observe sid (appendTurn sid t st) = observe sid st ++ [t] := by
  cases hst : st sid <;> simp [observe, appendTurn, get_session_history, hst]

theorem appendTurn_other (sid k : String) (t : Turn) (st : Sessions) (hk : k ≠ sid) :
    appendTurn sid t st k = st k := by
  cases hst : st sid <;> simp [appendTurn, get_session_history, hst, hk]

theorem appendAll_other (sid k : String) (ts : List Turn) (st : Sessions) (hk : k ≠ sid) :
    appendAll sid ts st k = st k := by
  induction ts generalizing st with
  | nil => rfl
  | cons t ts ih =>
    show appendAll sid ts (appendTurn sid t st) k = st k
    rw [ih (appendTurn sid t st), appendTurn_other sid k t st hk]

theorem observe_appendAll (sid : String) (ts : List Turn) (st : Sessions) :
    observe sid (appendAll sid ts st) = observe sid st ++ ts := by
  induction ts generalizing st with
  | nil => simp [appendAll]
  | cons t ts ih =>
    show observe sid (appendAll sid ts (appendTurn sid t st)) = _
    rw [ih (appendTurn sid t st), observe_appendTurn]
    simp

/-- C1: `get_session_history` returns the stored sequence for an id, or
creates, stores and returns an empty one when absent (touching no other key);
histories are append-only and session-isolated: appends under one id never
change the sequence observed under a distinct id, and appending the turns
`ts` to a session with empty history yields exactly `ts`, in call order. -/
theorem spec_c1_history_store (s1 s2 : String) (st : Sessions) (h : List Turn) (ts : List Turn) :
    (st s1 = some h → get_session_history s1 st = (h, st)) ∧
    (st s1 = none →
      (get_session_history s1 st).1 = [] ∧
      (get_session_history s1 st).2 s1 = some [] ∧
      ∀ k, k ≠ s1 → (get_session_history s1 st).2 k = st k) ∧
    (s1 ≠ s2 → observe s2 (appendAll s1 ts st) = observe s2 st) ∧
    (st s1 = some [] → observe s1 (appendAll s1 ts st) = ts) := by
  refine ⟨?_, ?_, ?_, ?_⟩
  · intro hst
    simp [get_session_history, hst]
  · intro hst
    refine ⟨by simp [get_session_history, hst], by simp [get_session_history, hst], ?_⟩
    intro k hk
    simp [get_session_history, hst, hk]
  · intro hne
    have hpt : appendAll s1 ts st s2 = st s2 :=
      appendAll_other s1 s2 ts st (Ne.symm hne)
    unfold observe get_session_history
    rw [hpt]
    cases st s2 <;> simp
  · intro hst
    rw [observe_appendAll]
    simp [observe, get_session_history, hst]

/-- Concrete instance of the C1 theorem at session ids "a" and "b". -/
theorem spec_c1_history_store_witness :
    (get_session_history "a" stA = ([], stA)) ∧
    ((get_session_history "b" stA).1 = [] ∧
      (get_session_history "b" stA).2 "b" = some [] ∧
      ∀ k, k ≠ "b" → (get_session_history "b" stA).2 k = stA k) ∧
    (observe "b" (appendAll "a" [{ role := Role.user, content := "q" }] stA) = observe "b" stA) ∧
    (observe "a" (appendAll "a" [{ role := Role.user, content := "q" }] stA)
      = [{ role := Role.user, content := "q" }]) :=
  ⟨(spec_c1_history_store "a" "b" stA [] [{ role := Role.user, content := "q" }]).1 rfl,
   (spec_c1_history_store "b" "x" stA [] [{ role := Role.user, content := "q" }]).2.1 rfl,
   (spec_c1_history_store "a" "b" stA [] [{ role := Role.user, content := "q" }]).2.2.1
     (by decide),
   (spec_c1_history_store "a" "b" stA [] [{ role := Role.user, content := "q" }]).2.2.2 rfl⟩

/-- C3: `load_career_data` is the fixed three-major mapping, and every entry
has non-empty careers, skills and resources sequences (the definition takes
no inputs and is a total constant, so it cannot fail). -/
theorem spec_c3_knowledge_table :
    load_career_data.map Prod.fst = ["Computer Science", "Business", "Biology"] ∧
    ∀ p ∈ load_career_data,
      p.2.careers ≠ [] ∧ p.2.skills ≠ [] ∧ p.2.resources ≠ [] := by
  refine ⟨rfl, ?_⟩
  decide

/-- Concrete instance of the C3 theorem at the first table entry. -/
theorem spec_c3_knowledge_table_witness :
    (load_career_data.get ⟨0, by decide⟩).2.careers ≠ [] ∧
    (load_career_data.get ⟨0, by decide⟩).2.skills ≠ [] ∧
    (load_career_data.get ⟨0, by decide⟩).2.resources ≠ [] :=
  spec_c3_knowledge_table.2 (load_career_data.get ⟨0, by decide⟩) (by decide)

/-- The initial app state of a fresh process: an empty transcript and no
stored histories. -/
def st0App : AppState := { messages := [], sessions := emptySessions }

/-- C2: when the model shim raises during an interaction, the presentation
loop shows the user an error message, and the transcript gains no assistant
turn (only the already-appended user turn). -/
theorem spec_c2_shim_error (model : ModelFn) (cd : List (String × CareerEntry))
    (major ui e : String) (st : AppState)
    (hui : ui ≠ "") (hmaj : major ≠ "")
    (herr : (chatbot_response ui major model cd st.sessions).1 = Except.error e) :
    (handleInput model cd major ui st).1.messages
        = st.messages ++ [{ role := Role.user, content := ui }] ∧
    (handleInput model cd major ui st).2
        = [UIEvent.chatUser ui,
           UIEvent.errorMsg ("Error generating response: " ++ e)] := by
  have hcond : (ui == "" || major == "") = false := by simp [hui, hmaj]
  rcases hr : chatbot_response ui major model cd st.sessions with ⟨res, sess⟩
  rw [hr] at herr
  simp only at herr
  subst herr
  simp [handleInput, hcond, hr]

/-- C10: when the model shim raises, the user turn was already appended
before the call, so the transcript ends exactly one turn longer than before,
ending in that user turn, and is not rolled back. -/
theorem spec_c10_no_rollback (model : ModelFn) (cd : List (String × CareerEntry))
    (major ui e : String) (st : AppState)
    (hui : ui ≠ "") (hmaj : major ≠ "")
    (herr : (chatbot_response ui major model cd st.sessions).1 = Except.error e) :
    (handleInput model cd major ui st).1.messages.length = st.messages.length + 1 ∧
    (handleInput model cd major ui st).1.messages.getLast?
        = some { role := Role.user, content := ui } ∧
    (handleInput model cd major ui st).1.messages
        = st.messages ++ [{ role := Role.user, content := ui }] := by
  have hcond : (ui == "" || major == "") = false := by simp [hui, hmaj]
  rcases hr : chatbot_response ui major model cd st.sessions with ⟨res, sess⟩
  rw [hr] at herr
  simp only at herr
  subst herr
  refine ⟨?_, ?_, ?_⟩ <;> simp [handleInput, hcond, hr, List.getLast?_concat]

/-- C5: the interaction fires exactly when both fields are non-empty; then
the user turn is appended, the shim result determines either an appended
assistant turn or an error message; with an empty field nothing is appended
and the shim is never consulted (the outcome is the same for every model
function); in every case the run resolves to a definite final state. -/
theorem spec_c5_interaction_cases (model : ModelFn) (cd : List (String × CareerEntry))
    (major ui : String) (st : AppState) :
    (ui ≠ "" → major ≠ "" →
      (∀ resp sess,
        chatbot_response ui major model cd st.sessions = (Except.ok resp, sess) →
        handleInput model cd major ui st
          = ({ messages := st.messages
                ++ [{ role := Role.user, content := ui },
                    { role := Role.assistant, content := resp }],
               sessions := sess },
             [UIEvent.chatUser ui, UIEvent.chatAssistant resp])) ∧
      (∀ e sess,
        chatbot_response ui major model cd st.sessions = (Except.error e, sess) →
        handleInput model cd major ui st
          = ({ messages := st.messages ++ [{ role := Role.user, content := ui }],
               sessions := sess },
             [UIEvent.chatUser ui,
              UIEvent.errorMsg ("Error generating response: " ++ e)]))) ∧
    (ui = "" ∨ major = "" →
      handleInput model cd major ui st = (st, []) ∧
      ∀ m2 : ModelFn, handleInput m2 cd major ui st = (st, [])) := by
  constructor
  · intro hui hmaj
    have hcond : (ui == "" || major == "") = false := by simp [hui, hmaj]
    constructor
    · intro resp sess hr
      simp [handleInput, hcond, hr]
    · intro e sess hr
      simp [handleInput, hcond, hr]
  · intro hcase
    have hcond : (ui == "" || major == "") = true := by
      rcases hcase with h | h <;> simp [h]
    exact ⟨by simp [handleInput, hcond], fun m2 => by simp [handleInput, hcond]⟩

theorem invokeWithHistory_other (m : ModelFn) (c a u sid k : String) (st : Sessions)
    (hk : k ≠ sid) : (invokeWithHistory m c a u sid st).2 k = st k := by
  unfold invokeWithHistory
  cases hA : assemblePrompt c a u (get_session_history sid st).1 with
  | error e =>
    simp only [hA]
    exact get_session_history_fst_other sid k st hk
  | ok msgs =>
    cases hm : m msgs with
    | error e =>
      simp only [hA, hm]
      exact get_session_history_fst_other sid k st hk
    | ok resp =>
      simp only [hA, hm]
      rw [appendTurn_other sid k _ _ hk, appendTurn_other sid k _ _ hk,
        get_session_history_fst_other sid k st hk]

theorem handleInput_sessions_other (model : ModelFn) (cd : List (String × CareerEntry))
    (major ui : String) (st : AppState) (k : String) (hk : k ≠ "default") :
    (handleInput model cd major ui st).1.sessions k = st.sessions k := by
  have hcb : (chatbot_response ui major model cd st.sessions).2 k = st.sessions k :=
    invokeWithHistory_other model (jsonDumpsCareer cd) major ui "default" k st.sessions hk
  cases hb : (ui == "" || major == "") with
  | true => simp [handleInput, hb]
  | false =>
    rcases hr : chatbot_response ui major model cd st.sessions with ⟨res, sess⟩
    rw [hr] at hcb
    cases res <;> simpa [handleInput, hb, hr] using hcb

/-- C9: the session_id parameter of `chatbot_response` defaults to "default"
(calling it without a session id is calling it at "default"), and the
input-handling block of `main`, which passes no session id, never touches any
session key other than "default". -/
theorem spec_c9_default_session (ui major : String) (model : ModelFn)
    (cd : List (String × CareerEntry)) (sess : Sessions) (st : AppState) (k : String) :
    chatbot_response ui major model cd sess
        = chatbot_response ui major model cd sess "default" ∧
    (k ≠ "default" →
      (handleInput model cd major ui st).1.sessions k = st.sessions k) :=
  ⟨rfl, fun hk => handleInput_sessions_other model cd major ui st k hk⟩

/-- Concrete instance of the C9 theorem at session key "s1". -/
theorem spec_c9_default_session_witness :
    chatbot_response "q" "m" failModel load_career_data emptySessions
        = chatbot_response "q" "m" failModel load_career_data emptySessions "default" ∧
    (handleInput failModel load_career_data "m" "q" st0App).1.sessions "s1"
        = st0App.sessions "s1" :=
  ⟨(spec_c9_default_session "q" "m" failModel load_career_data emptySessions st0App "s1").1,
   (spec_c9_default_session "q" "m" failModel load_career_data emptySessions st0App "s1").2
     (by decide)⟩

/-- C6: with no usable credential in the environment and no interactive value
supplied, the run halts after reporting the missing key, before the model is
ever initialized or called, and the transcript (state) is unchanged; the
outcome does not depend on the model function at all. -/
theorem spec_c6_missing_credential (env : Option String) (initErr : Option String)
    (model : ModelFn) (major ui : String) (st0 : AppState)
    (henv : env = none ∨ env = some "") :
    mainRun env "" initErr model major ui st0
      = { state := st0,
          events :=
            [UIEvent.errorMsg "Gemini API key not found in .env file. Please enter it below.",
             UIEvent.errorMsg "Gemini API key is required to proceed."],
          reachedChat := false } := by
  rcases henv with h | h <;> subst h <;> rfl

/-- Concrete instance of the C6 theorem with an absent environment variable. -/
theorem spec_c6_missing_credential_witness :
    mainRun none "" none stub_model "Computer Science" "What skills should I learn?" st0App
      = { state := st0App,
          events :=
            [UIEvent.errorMsg "Gemini API key not found in .env file. Please enter it below.",
             UIEvent.errorMsg "Gemini API key is required to proceed."],
          reachedChat := false } :=
  spec_c6_missing_credential none none stub_model "Computer Science"
    "What skills should I learn?" st0App (Or.inl rfl)

set_option maxRecDepth 100000 in
/-- Concrete instance of the C2 theorem with an always-failing shim. -/
theorem spec_c2_shim_error_witness :
    (handleInput failModel load_career_data "m" "q" st0App).1.messages
        = st0App.messages ++ [{ role := Role.user, content := "q" }] ∧
    (handleInput failModel load_career_data "m" "q" st0App).2
        = [UIEvent.chatUser "q",
           UIEvent.errorMsg ("Error generating response: " ++ "boom")] :=
  spec_c2_shim_error failModel load_career_data "m" "q" "boom" st0App
    (by decide) (by decide) (by rfl)

set_option maxRecDepth 100000 in
/-- Concrete instance of the C10 theorem with an always-failing shim. -/
theorem spec_c10_no_rollback_witness :
    (handleInput failModel load_career_data "m" "q" st0App).1.messages.length
        = st0App.messages.length + 1 ∧
    (handleInput failModel load_career_data "m" "q" st0App).1.messages.getLast?
        = some { role := Role.user, content := "q" } ∧
    (handleInput failModel load_career_data "m" "q" st0App).1.messages
        = st0App.messages ++ [{ role := Role.user, content := "q" }] :=
  spec_c10_no_rollback failModel load_career_data "m" "q" "boom" st0App
    (by decide) (by decide) (by rfl)

set_option maxRecDepth 100000 in
/-- Concrete instance of the C5 theorem: a successful interaction and an
interaction with an empty question. -/
theorem spec_c5_interaction_cases_witness :
    handleInput stub_model load_career_data "m" "q" st0App
      = ({ messages := st0App.messages
            ++ [{ role := Role.user, content := "q" },
                { role := Role.assistant, content := "Learn Python and data analysis." }],
           sessions := (chatbot_response "q" "m" stub_model load_career_data st0App.sessions).2 },
         [UIEvent.chatUser "q", UIEvent.chatAssistant "Learn Python and data analysis."]) ∧
    handleInput stub_model load_career_data "m" "" st0App = (st0App, []) :=
  ⟨((spec_c5_interaction_cases stub_model load_career_data "m" "q" st0App).1
      (by decide) (by decide)).1
      "Learn Python and data analysis."
      (chatbot_response "q" "m" stub_model load_career_data st0App.sessions).2
      (by rfl),
   ((spec_c5_interaction_cases stub_model load_career_data "m" "" st0App).2 (Or.inl rfl)).1⟩

/-- C8 counterexample: the claim that the program performs no file reads is
false: when a `.env` file exists, the run performs a read of it (the
`load_dotenv()` call at src/BOT.py line 12). -/
theorem spec_c8_counterexample : program_fileOps true ≠ [] := by decide

/-- C8 amended: apart from `load_dotenv` reading the optional `.env` file at
startup, the program touches no files: every file operation of a run is a
read of ".env", and no run performs any write (so no state it keeps can
survive a process restart). -/
theorem spec_c8_no_files_amended (envFileExists : Bool) :
    (∀ op ∈ program_fileOps envFileExists, op = FileOp.read ".env") ∧
    (∀ p, FileOp.write p ∉ program_fileOps envFileExists) := by
  constructor
  · intro op hop
    cases envFileExists with
    | false => simp [program_fileOps, load_dotenv_fileOps] at hop
    | true =>
      simp [program_fileOps, load_dotenv_fileOps] at hop
      exact hop
  · intro p hop
    cases envFileExists with
    | false => simp [program_fileOps, load_dotenv_fileOps] at hop
    | true => simp [program_fileOps, load_dotenv_fileOps] at hop

/-- Concrete instance of the C8 amended theorem with the `.env` file present. -/
theorem spec_c8_no_files_amended_witness :
    FileOp.read ".env" = FileOp.read ".env" ∧
    FileOp.write "out.txt" ∉ program_fileOps true :=
  ⟨(spec_c8_no_files_amended true).1 (FileOp.read ".env") (by decide),
   (spec_c8_no_files_amended true).2 "out.txt"⟩

set_option maxRecDepth 100000 in
/-- C7: for every major and question string, empty or unrecognized included,
the prompt assembler succeeds with a well-formed prompt in which the major
and the question are passed through unchanged (no validation) and the fixed
instruction text appears verbatim in the system message. -/
theorem spec_c7_prompt_assembler (cds major ui : String) (hist : List Turn) :
    ∃ sys : String,
      assemblePrompt cds major ui hist
        = Except.ok ({ role := "system", content := sys } :: histPromptMsgs hist
            ++ [{ role := "human",
                  content := "Major: " ++ major ++ "\nInput: " ++ ui }]) ∧
      ∃ a b : String, sys = a ++ instructionText ++ b := by
  refine
    ⟨"\nYou are a career guidance chatbot designed for undergraduates. Your goal is to provide personalized, concise, and actionable career advice based on the user\x27s academic major, interests, and skills. Use the following knowledge base for reference:\n\n"
        ++ cds ++ "\n\nConversation history:\n" ++ renderHistory hist
        ++ "\n\nUser input: Major: " ++ major ++ "\nInput: " ++ ui
        ++ "\n\n" ++ instructionText ++ "\n", ?_, ?_⟩
  · simp [assemblePrompt, get_prompt_template, systemSegs, humanSegs, formatSegs,
      promptVars, lookupVar, Except.map, String.append_assoc]
  · refine
      ⟨"\nYou are a career guidance chatbot designed for undergraduates. Your goal is to provide personalized, concise, and actionable career advice based on the user\x27s academic major, interests, and skills. Use the following knowledge base for reference:\n\n"
          ++ cds ++ "\n\nConversation history:\n" ++ renderHistory hist
          ++ "\n\nUser input: Major: " ++ major ++ "\nInput: " ++ ui ++ "\n\n",
       "\n", ?_⟩
    simp [String.append_assoc]

set_option maxRecDepth 1000000 in
/-- C4: end-to-end with session id "s1", major "Computer Science" and the
question "What skills should I learn?": the stubbed shim reply is returned,
the history stored under "s1" becomes exactly the user turn followed by the
assistant turn, and the assembled system prompt embeds the serialized
Computer Science careers and skills lists verbatim. -/
theorem spec_c4_end_to_end :
    (chatbot_response "What skills should I learn?" "Computer Science" stub_model
        load_career_data emptySessions "s1").1
      = Except.ok "Learn Python and data analysis." ∧
    observe "s1" (chatbot_response "What skills should I learn?" "Computer Science"
        stub_model load_career_data emptySessions "s1").2
      = [{ role := Role.user, content := "What skills should I learn?" },
         { role := Role.assistant, content := "Learn Python and data analysis." }] ∧
    (∃ sys rest,
      assemblePrompt (jsonDumpsCareer load_career_data) "Computer Science"
          "What skills should I learn?" []
        = Except.ok ({ role := "system", content := sys } :: rest) ∧
      containsStr sys careersBlock = true ∧
      containsStr sys skillsBlock = true) :=
  ⟨rfl, rfl, ⟨_, _, rfl, by decide, by decide⟩⟩
